import Mathlib

/-!
Shallow embedding of the Amazon entry automation tool
(Next.js route `POST /api/amazon-entry` and the service layer
`app/services/amazon-operations.ts`, plus the legacy standalone script).

Driver interactions (Playwright waits, navigations, clicks) are modelled by
environment records: each wait or navigation that can fail is an
`Except RunErr Unit` oracle, each boolean page probe (`locator.count()`,
bounded `waitFor` probes whose failures are swallowed by a `catch`) is a
`Bool` oracle, and the page state seen by a repeated query is a function of
how many times the mutating action has run.  Page-mutating actions (fills,
clicks) are recorded in an action trace.  Wall-clock values (`Date.now()`,
`waitForTimeout`) are not modelled.  JavaScript numbers are modelled as
rationals plus a non-finite marker (`NaN` / `Infinity` collapse to one
constructor; the only use the code makes of non-finite values is the
`Number.isFinite` test, which rejects all of them).
-/

/-- Error classes of `ERROR_TYPE` in `app/types` (`entry-result.ts`). -/
inductive ErrorType
  | TIME_OUT
  | BLAND_ENTRY
  | NOT_FOUND
  | INVALID_INPUT
deriving DecidableEq, Repr

/-- Model of a JavaScript number: a finite rational, or the collapsed
non-finite class (`NaN`, `Infinity`, `-Infinity`).  The validation code only
distinguishes non-finite numbers via `Number.isFinite`, which is false for
all of them. -/
inductive JSNum
  | fin (q : ℚ)
  | undef
deriving DecidableEq, Repr

/-- JavaScript `Number.isFinite`. -/
def JSNum.isFinite : JSNum → Bool
  | .fin _ => true
  | .undef => false

/-- JavaScript comparison `x < 0` (false on `NaN`; the non-finite case is
irrelevant to the validator because `isFinite` is tested first in the same
disjunction). -/
def JSNum.ltZero : JSNum → Bool
  | .fin q => decide (q < 0)
  | .undef => false

/-- Display form used when the result is serialized to CSV. -/
def JSNum.display : JSNum → String
  | .fin q => toString q
  | .undef => "NaN"

/-- Input unit `EntryItem` of `app/types`: JAN code, price, stock. -/
structure EntryItem where
  JANCode : String
  price : JSNum
  stock : JSNum
deriving DecidableEq, Repr

/-- Result row `EntryResult` of `app/types/entry-result.ts`.  Optional fields
mirror the optional properties of the TypeScript type. -/
structure EntryResult where
  JANCode : String
  price : Option JSNum := none
  stock : Option JSNum := none
  success : Bool
  errorType : Option ErrorType := none
  errorMessage : Option String := none
deriving DecidableEq, Repr

/-- Exceptions thrown by driver operations: Playwright's `TimeoutError`
(distinguished by `isTimeoutError`) or any other `Error`, each carrying its
message. -/
inductive RunErr
  | timeout (msg : String)
  | err (msg : String)
deriving DecidableEq, Repr

/-- Translation of `isTimeoutError` in `amazon-operations.ts`: recognises the
timeout class of a thrown error. -/
def isTimeoutError : RunErr → Bool
  | .timeout _ => true
  | .err _ => false

/-- The `message` property of the thrown error. -/
def RunErr.message : RunErr → String
  | .timeout m => m
  | .err m => m

/-- Translation of `buildSuccessResult` in `amazon-operations.ts`. -/
def buildSuccessResult (item : EntryItem) : EntryResult :=
  { JANCode := item.JANCode
    price := some item.price
    stock := some item.stock
    success := true }

/-- Account names of `ACCOUNT_NAME` in `app/types`. -/
inductive AccountName
  | fives
  | keyPoint
deriving DecidableEq, Repr

/-- Translation of `ensureAccountName`: a valid supplied name is kept,
otherwise the KeyPoint account is the default. -/
def ensureAccountName (value : Option AccountName) : AccountName :=
  value.getD .keyPoint

/-! ## OTP challenge (`handleOtpChallenge` in `amazon-operations.ts`) -/

/-- Page and TOTP environment for the OTP challenge.  `present n` is whether
the OTP field locator has a match after `n` submissions (the page state is a
function of the number of submissions), `fieldVisible n` is the visibility
wait of attempt `n`, `buttonPresent n` the sign-in button count probe,
`loadOk n` the post-click `waitForLoadState`, and `gen n` the (time-varying)
code `authenticator.generate(secret)` returns at attempt `n`. -/
structure OtpEnv where
  present : Nat → Bool
  fieldVisible : Nat → Except RunErr Unit
  buttonPresent : Nat → Bool
  loadOk : Nat → Except RunErr Unit
  gen : Nat → String

/-- Page-mutating actions of the OTP challenge. -/
inductive OtpAct
  | clearField
  | fillCode (code : String)
  | clickSignIn
deriving DecidableEq, Repr

/-- Message thrown when the OTP challenge is not solved after all attempts. -/
def otpExhaustedMsg : String := "OTP 認証を自動で突破できませんでした。"

/-- The retry loop of `handleOtpChallenge`: first argument is the remaining
fuel (3 at entry), second the number of submissions already made.  After the
fuel runs out the field is re-queried and, if still present, the exhausted
error is thrown (source lines 120-145 of `amazon-operations.ts`). -/
def otpAttemptLoop (env : OtpEnv) : Nat → Nat → List OtpAct × Except RunErr Unit
  | 0, n =>
    if env.present n then ([], .error (.err otpExhaustedMsg)) else ([], .ok ())
  | fuel + 1, n =>
    match env.fieldVisible n with
    | .error e => ([], .error e)
    | .ok _ =>
      let acts := [OtpAct.clearField, OtpAct.fillCode (env.gen n)]
      if env.buttonPresent n = false then
        (acts, .error (.err "OTP 画面でサインインボタンが見つかりません。"))
      else
        match env.loadOk n with
        | .error e => (acts ++ [OtpAct.clickSignIn], .error e)
        | .ok _ =>
          if env.present (n + 1) = false then
            (acts ++ [OtpAct.clickSignIn], .ok ())
          else
            let rest := otpAttemptLoop env fuel (n + 1)
            (acts ++ [OtpAct.clickSignIn] ++ rest.1, rest.2)

/-- Translation of `handleOtpChallenge`: skip when no OTP prompt is present,
fail when the secret is missing, otherwise run at most 3 attempts. -/
def handleOtpChallenge (otpSecret : String) (env : OtpEnv) :
    List OtpAct × Except RunErr Unit :=
  if env.present 0 = false then ([], .ok ())
  else if otpSecret = "" then
    ([], .error (.err "OTP 用のシークレットが設定されていません。"))
  else otpAttemptLoop env 3 0

/-- Expected trace of `m` full OTP attempt rounds. -/
def otpRounds (env : OtpEnv) : Nat → List OtpAct
  | 0 => []
  | m + 1 =>
    otpRounds env m ++ [OtpAct.clearField, OtpAct.fillCode (env.gen m), OtpAct.clickSignIn]

/-! ## Sign-in (`signInAmazon` in `amazon-operations.ts`) -/

/-- Page-mutating actions of the sign-in protocol. -/
inductive SAct
  | gotoSignIn
  | fillEmail (s : String)
  | clickNext
  | fillPassword (s : String)
  | clickLogin
  | otp (a : OtpAct)
  | clickAccount (name : AccountName)
  | clickRegion
  | clickSelectAccount
deriving DecidableEq, Repr

/-- Driver environment for `signInAmazon`: one oracle per wait or navigation
(in source order), plus the OTP environment. -/
structure SignInEnv where
  gotoRes : Except RunErr Unit
  emailVisible : Except RunErr Unit
  passwordVisible : Except RunErr Unit
  loadAfterLogin : Except RunErr Unit
  otp : OtpEnv
  accountVisible : Except RunErr Unit
  regionVisible : Except RunErr Unit
  selectVisible : Except RunErr Unit

/-- Translation of `signInAmazon` (lines 151-188 of `amazon-operations.ts`):
navigate, wait for the email prompt (unconditionally - there is no
already-signed-in count probe in this function), fill email and password,
run the OTP challenge, then select account, region and confirm. -/
def signInAmazon (email password otpSecret : String) (accountName : AccountName)
    (env : SignInEnv) : List SAct × Except RunErr Unit :=
  match env.gotoRes with
  | .error e => ([], .error e)
  | .ok _ =>
    match env.emailVisible with
    | .error e => ([SAct.gotoSignIn], .error e)
    | .ok _ =>
      let a1 := [SAct.gotoSignIn, SAct.fillEmail email, SAct.clickNext]
      match env.passwordVisible with
      | .error e => (a1, .error e)
      | .ok _ =>
        let a2 := a1 ++ [SAct.fillPassword password, SAct.clickLogin]
        match env.loadAfterLogin with
        | .error e => (a2, .error e)
        | .ok _ =>
          let otpRun := handleOtpChallenge otpSecret env.otp
          let a3 := a2 ++ otpRun.1.map SAct.otp
          match otpRun.2 with
          | .error e => (a3, .error e)
          | .ok _ =>
            match env.accountVisible with
            | .error e => (a3, .error e)
            | .ok _ =>
              let a4 := a3 ++ [SAct.clickAccount accountName]
              match env.regionVisible with
              | .error e => (a4, .error e)
              | .ok _ =>
                let a5 := a4 ++ [SAct.clickRegion]
                match env.selectVisible with
                | .error e => (a5, .error e)
                | .ok _ => (a5 ++ [SAct.clickSelectAccount], .ok ())

/-- Driver environment for the legacy script's `ensureSignedIn`
(`sample-code`, lines 91-137): count probes are `Nat` oracles, waits are
`Except` oracles, and the nested `handleOtpChallenge` call of the legacy
script is abstracted by its outcome `otpRes`. -/
structure EnsureEnv where
  emailCount : Nat
  emailVisible : Except RunErr Unit
  nextCount : Nat
  passwordVisible : Except RunErr Unit
  loginCount : Nat
  loadRes : Except RunErr Unit
  otpRes : Except RunErr Unit

/-- Translation of the legacy `ensureSignedIn`: when the email input has no
match the function returns immediately (already signed in); otherwise the
credential steps run. -/
def ensureSignedIn (email password : String) (env : EnsureEnv) :
    List SAct × Except RunErr Unit :=
  if env.emailCount = 0 then ([], .ok ())
  else if email = "" then
    ([], .error (.err "AMAZON_EMAIL (or LOGIN_EMAIL) must be set to allow automated sign-in."))
  else if password = "" then
    ([], .error (.err "AMAZON_PASSWORD (or LOGIN_PASSWORD) must be set to allow automated sign-in."))
  else
    match env.emailVisible with
    | .error e => ([], .error e)
    | .ok _ =>
      let a1 := [SAct.fillEmail email] ++ (if 0 < env.nextCount then [SAct.clickNext] else [])
      match env.passwordVisible with
      | .error e => (a1, .error e)
      | .ok _ =>
        let a2 := a1 ++ [SAct.fillPassword password]
        if env.loginCount = 0 then
          (a2, .error (.err "Failed to locate the \"ログイン\" button on the password step."))
        else
          match env.loadRes with
          | .error e => (a2 ++ [SAct.clickLogin], .error e)
          | .ok _ =>
            match env.otpRes with
            | .error e => (a2 ++ [SAct.clickLogin], .error e)
            | .ok _ => (a2 ++ [SAct.clickLogin], .ok ())

/-! ## Item classifier (`searchAinoriProduct` in `amazon-operations.ts`) -/

/-- Driver interactions of the product search, recorded as a trace.  The two
probes (`checkNoResults`, `brandProbe`) are recorded as interactions too. -/
inductive DrvAct
  | gotoSearch
  | clickSearchBox
  | fillSearchBox (query : String)
  | clickSubmit
  | checkNoResults
  | expandRow
  | brandProbe
  | clickSecondaryToggle
  | clickListingCard
  | clickListProduct
deriving DecidableEq, Repr

/-- Result of `searchAinoriProduct`: the `SearchProductResult` of the source
carries either an error row or the freshly opened listing sub-page handle. -/
inductive SearchProductResult
  | errRes (e : EntryResult)
  | listing
deriving DecidableEq, Repr

/-- The `NOT_FOUND` row built when the no-results indicator is present. -/
def notFoundResult (jan : String) : EntryResult :=
  { JANCode := jan
    success := false
    errorType := some .NOT_FOUND
    errorMessage := some "相乗り出品できない商品です" }

/-- The `BLAND_ENTRY` row built when the brand-restriction indicator shows. -/
def brandResult (jan : String) : EntryResult :=
  { JANCode := jan
    success := false
    errorType := some .BLAND_ENTRY
    errorMessage := some "ブランドの出品許可が必要なためスキップしました。" }

/-- Driver environment for `searchAinoriProduct`, one oracle per wait /
probe in source order.  `noResultsPresent` is the count of the no-results
text, `brandRestricted` the 3000 ms bounded visibility probe whose failure
is swallowed (`catch` treats it as not restricted). -/
structure SearchEnv where
  gotoRes : Except RunErr Unit
  searchBoxVisible : Except RunErr Unit
  submitClick : Except RunErr Unit
  noResultsPresent : Bool
  expandVisible : Except RunErr Unit
  loadAfterExpand : Except RunErr Unit
  brandRestricted : Bool
  secondaryVisible : Except RunErr Unit
  cardVisible : Except RunErr Unit
  popupRes : Except RunErr Unit

/-- Translation of `searchAinoriProduct` (lines 193-264 of
`amazon-operations.ts`): navigate and search, return `NotFound` when the
no-results text is present, otherwise expand the first row, probe the brand
restriction for a bounded interval, and on the clear path open the listing
sub-page. -/
def searchAinoriProduct (JANCode : String) (env : SearchEnv) :
    List DrvAct × Except RunErr SearchProductResult :=
  match env.gotoRes with
  | .error e => ([], .error e)
  | .ok _ =>
    match env.searchBoxVisible with
    | .error e => ([DrvAct.gotoSearch], .error e)
    | .ok _ =>
      let a1 := [DrvAct.gotoSearch, DrvAct.clickSearchBox, DrvAct.fillSearchBox JANCode]
      match env.submitClick with
      | .error e => (a1, .error e)
      | .ok _ =>
        let a2 := a1 ++ [DrvAct.clickSubmit, DrvAct.checkNoResults]
        if env.noResultsPresent then
          (a2, .ok (.errRes (notFoundResult JANCode)))
        else
          match env.expandVisible with
          | .error e => (a2, .error e)
          | .ok _ =>
            let a3 := a2 ++ [DrvAct.expandRow]
            match env.loadAfterExpand with
            | .error e => (a3, .error e)
            | .ok _ =>
              let a4 := a3 ++ [DrvAct.brandProbe]
              if env.brandRestricted then
                (a4, .ok (.errRes (brandResult JANCode)))
              else
                match env.secondaryVisible with
                | .error e => (a4, .error e)
                | .ok _ =>
                  let a5 := a4 ++ [DrvAct.clickSecondaryToggle]
                  match env.cardVisible with
                  | .error e => (a5, .error e)
                  | .ok _ =>
                    let a6 := a5 ++ [DrvAct.clickListingCard]
                    match env.popupRes with
                    | .error e => (a6, .error e)
                    | .ok _ => (a6 ++ [DrvAct.clickListProduct], .ok .listing)

/-! ## Listing submitter (`enterProductDetails` in `amazon-operations.ts`) -/

/-- Driver environment for `enterProductDetails`: the five fill/click steps
before the register-button probe (SKU, shipping method, stock, price,
submit), the bounded register-button probe (its `waitFor` failure is caught
and recorded as absence), and the final register click phase (wrapped in
`try`/`finally` in the source). -/
structure EnterEnv where
  skuStep : Except RunErr Unit
  katBoxStep : Except RunErr Unit
  inventoryStep : Except RunErr Unit
  priceStep : Except RunErr Unit
  submitStep : Except RunErr Unit
  registerVisible : Bool
  registerClick : Except RunErr Unit

/-- The `INVALID_INPUT` row built when the register button never shows. -/
def invalidInputResult (jan : String) : EntryResult :=
  { JANCode := jan
    success := false
    errorType := some .INVALID_INPUT
    errorMessage := some "商品の入力情報が不正です" }

/-- Translation of `enterProductDetails` (lines 269-320 of
`amazon-operations.ts`).  The second component records whether
`listingPage.close()` ran before the call settled: the source closes the
sub-page in the no-register-button branch and in the `finally` of the final
register-click phase, but the five earlier steps are not wrapped, so an
exception there propagates without a close. -/
def enterProductDetails (item : EntryItem) (env : EnterEnv) :
    Except RunErr (Option EntryResult) × Bool :=
  match env.skuStep with
  | .error e => (.error e, false)
  | .ok _ =>
    match env.katBoxStep with
    | .error e => (.error e, false)
    | .ok _ =>
      match env.inventoryStep with
      | .error e => (.error e, false)
      | .ok _ =>
        match env.priceStep with
        | .error e => (.error e, false)
        | .ok _ =>
          match env.submitStep with
          | .error e => (.error e, false)
          | .ok _ =>
            if env.registerVisible = false then
              (.ok (some (invalidInputResult item.JANCode)), true)
            else
              match env.registerClick with
              | .error e => (.error e, true)
              | .ok _ => (.ok none, true)

/-! ## Run state of the batch route (`app/api/amazon-entry/route.ts`) -/

/-- Run statuses of the route's `RunStatus`. -/
inductive RunStatus
  | idle
  | running
  | completed
  | error
  | aborted
deriving DecidableEq, Repr

/-- Display label of an `ERROR_TYPE` value (they are string constants in the
source). -/
def ErrorType.label : ErrorType → String
  | .TIME_OUT => "TIME_OUT"
  | .BLAND_ENTRY => "BLAND_ENTRY"
  | .NOT_FOUND => "NOT_FOUND"
  | .INVALID_INPUT => "INVALID_INPUT"

/-- Translation of `escapeCsvValue` in the route: quote and escape a CSV
cell when it contains a quote, a comma or a newline. -/
def escapeCsvValue (value : String) : String :=
  if value.contains (Char.ofNat 34) || value.contains ',' || value.contains '\n' then
    "\"" ++ value.replace "\"" "\"\"" ++ "\""
  else value

/-- Translation of `buildResultCsv` in the route. -/
def buildResultCsv (results : List EntryResult) : String :=
  let header := "JAN,price,stock,errorType,errorMessage"
  let row : EntryResult → String := fun r =>
    String.intercalate ","
      ([r.JANCode,
        (r.price.map JSNum.display).getD "",
        (r.stock.map JSNum.display).getD "",
        (r.errorType.map ErrorType.label).getD "",
        r.errorMessage.getD ""].map escapeCsvValue)
  let body := String.intercalate "\n" (results.map row)
  if body = "" then header ++ "\n" else header ++ "\n" ++ body

/-- Mutable run state of the route (`PublicRunState` without the
serialization-only bookkeeping: `runId`, timestamps, `accountName` and
`headless` are request echoes / wall-clock values and are not modelled). -/
structure RunState where
  status : RunStatus
  progress : Nat × Nat
  results : List EntryResult
  error : Option String
  currentProductId : Option String
  lastMessage : Option String
  resultCsv : Option String
deriving DecidableEq, Repr

/-- The fresh state installed by an accepted start request (route lines
209-223): running, `progress = (total, 0)`, empty results. -/
def freshRunState (total : Nat) : RunState :=
  { status := .running
    progress := (total, 0)
    results := []
    error := none
    currentProductId := none
    lastMessage := none
    resultCsv := none }

/-- State visible at a per-item iteration boundary: the shared `runState`
plus the run promise's local `processed` counter and local `lastMessage`
variable. -/
structure LoopState where
  run : RunState
  processed : Nat
  localLastMessage : Option String
deriving DecidableEq, Repr

/-- The enrichment `{price: source.price, stock: source.stock, ...result}`
performed by `pushResult`: spread semantics keep the result's own fields and
fall back to the source item's price and stock. -/
def enrichResult (r : EntryResult) (src : EntryItem) : EntryResult :=
  { r with price := some (r.price.getD src.price), stock := some (r.stock.getD src.stock) }

/-- Translation of `pushResult` (route lines 255-267): record the error
message in the local variable when present, append the enriched result, and
set the shared `lastMessage` to the result's message or the local one. -/
def pushResult (st : LoopState) (result : EntryResult) (source : EntryItem) : LoopState :=
  let localMsg := match result.errorMessage with
    | some m => some m
    | none => st.localLastMessage
  { st with
    localLastMessage := localMsg
    run := { st.run with
      results := st.run.results ++ [enrichResult result source]
      lastMessage := match result.errorMessage with
        | some m => some m
        | none => localMsg } }

/-- Translation of `ensureProgressUpdate` (route lines 246-248). -/
def ensureProgressUpdate (st : LoopState) (processed total : Nat) : LoopState :=
  { st with run := { st.run with progress := (total, processed) } }

/-- The `processed += 1; ensureProgressUpdate(processed, total)` pair that
follows every `pushResult` in the item loop. -/
def advanceProcessed (st : LoopState) (total : Nat) : LoopState :=
  ensureProgressUpdate { st with processed := st.processed + 1 } (st.processed + 1) total

/-- Driver environment for processing one item: the search phase and the
listing sub-page phase. -/
structure ItemEnv where
  search : SearchEnv
  enter : EnterEnv

/-- Outcome of the item loop's `try` block body (route lines 292-316): the
row that gets pushed together with a flag marking the success path (which
sets the local message before pushing), or the propagated exception. -/
def stepOutcome (record : EntryItem) (env : ItemEnv) : Except RunErr (EntryResult × Bool) :=
  match (searchAinoriProduct record.JANCode env.search).2 with
  | .error e => .error e
  | .ok (.errRes r) => .ok (r, false)
  | .ok .listing =>
    match (enterProductDetails record env.enter).1 with
    | .error e => .error e
    | .ok (some r) => .ok (r, false)
    | .ok none => .ok (buildSuccessResult record, true)

/-- The row pushed by the per-item `catch` for a timeout (route lines
318-324). -/
def timeoutResult (jan : String) : EntryResult :=
  { JANCode := jan
    success := false
    errorType := some .TIME_OUT
    errorMessage := some "処理がタイムアウトしました。" }

/-- The row pushed by the per-item `catch` for a non-timeout error (route
lines 325-333); the error is then re-thrown. -/
def fatalResult (jan msg : String) : EntryResult :=
  { JANCode := jan
    success := false
    errorType := some .INVALID_INPUT
    errorMessage := some msg }

/-- Whether processing this item throws a non-timeout error, aborting the
batch. -/
def isFatalStep (record : EntryItem) (env : ItemEnv) : Bool :=
  match stepOutcome record env with
  | .error e => !isTimeoutError e
  | .ok _ => false

/-- Whether processing this item throws a timeout. -/
def isTimeoutStep (record : EntryItem) (env : ItemEnv) : Bool :=
  match stepOutcome record env with
  | .error e => isTimeoutError e
  | .ok _ => false

/-- Message of the error this item's processing throws (empty when it does
not throw). -/
def stepErrMsg (record : EntryItem) (env : ItemEnv) : String :=
  match stepOutcome record env with
  | .error e => e.message
  | .ok _ => ""

/-- Cooperative cancellation signal: `cancelFrom = some c` means the abort
request arrives during the run and is first observable at the check of item
index `c` (the signal is monotone: every later read also sees it; reads are
indexed by item position, with `items.length` standing for the read at the
end of the loop).  `none` means no cancellation is requested during the
run. -/
def abortedAt : Option Nat → Nat → Bool
  | none, _ => false
  | some c, t => decide (c ≤ t)

/-- How the item loop exited. -/
inductive LoopExit
  | exhausted
  | cancelled (index : Nat)
  | fatal (index : Nat) (msg : String)
deriving DecidableEq, Repr

/-- Translation of the item loop (route lines 284-341).  Returns the list of
states at each per-item iteration boundary (after each appended outcome),
the final state, and how the loop exited.  The abort check at the top of
each iteration throws outside the per-item `try`, so it appends nothing; the
per-item `catch` appends a timeout row and continues, or appends an error
row and re-throws. -/
def runLoop (behav : Nat → ItemEnv) (cancelFrom : Option Nat) (total : Nat) :
    List EntryItem → Nat → LoopState → List LoopState × LoopState × LoopExit
  | [], _, st => ([], st, .exhausted)
  | record :: rest, i, st =>
    if abortedAt cancelFrom i then ([], st, .cancelled i)
    else
      let st0 : LoopState :=
        { st with
          run := { st.run with currentProductId := some record.JANCode }
          localLastMessage := none }
      match stepOutcome record (behav i) with
      | .ok (r, isSuccessPath) =>
        let stPre := if isSuccessPath then { st0 with localLastMessage := some "出品が完了しました。" } else st0
        let st1 := advanceProcessed (pushResult stPre r record) total
        let rest' := runLoop behav cancelFrom total rest (i + 1) st1
        (st1 :: rest'.1, rest'.2)
      | .error e =>
        if isTimeoutError e then
          let st1 := advanceProcessed (pushResult st0 (timeoutResult record.JANCode) record) total
          let rest' := runLoop behav cancelFrom total rest (i + 1) st1
          (st1 :: rest'.1, rest'.2)
        else
          let st1 := advanceProcessed (pushResult st0 (fatalResult record.JANCode e.message) record) total
          ([st1], st1, .fatal i e.message)

/-- Pure mirror of the item loop used to state its behaviour: the sequence
of enriched rows it appends and the exit it takes. -/
def expectedRun (behav : Nat → ItemEnv) (cancelFrom : Option Nat) :
    List EntryItem → Nat → List EntryResult × LoopExit
  | [], _ => ([], .exhausted)
  | record :: rest, i =>
    if abortedAt cancelFrom i then ([], .cancelled i)
    else
      match stepOutcome record (behav i) with
      | .ok (r, _) =>
        let rest' := expectedRun behav cancelFrom rest (i + 1)
        (enrichResult r record :: rest'.1, rest'.2)
      | .error e =>
        if isTimeoutError e then
          let rest' := expectedRun behav cancelFrom rest (i + 1)
          (enrichResult (timeoutResult record.JANCode) record :: rest'.1, rest'.2)
        else
          ([enrichResult (fatalResult record.JANCode e.message) record], .fatal i e.message)

/-- The `finally` block (close session, clear current item) followed by the
run promise's `.catch` handler (route lines 348-373): status `aborted` when
the signal was aborted, otherwise status `error` with the thrown message. -/
def settleCatch (st : RunState) (e : RunErr) (sigAborted : Bool) : RunState :=
  let st1 := { st with currentProductId := none }
  if sigAborted then
    { st1 with status := .aborted, resultCsv := some (buildResultCsv st1.results) }
  else
    { st1 with
      status := .error
      error := some e.message
      resultCsv := some (buildResultCsv st1.results) }

/-- Normal exhaustion epilogue (route lines 343-347 plus the `finally`):
status `aborted` when the signal was aborted by the time of the final read,
otherwise `completed`. -/
def settleCompleted (st : RunState) (sigAborted : Bool) : RunState :=
  { st with
    status := if sigAborted then .aborted else .completed
    resultCsv := some (buildResultCsv st.results)
    currentProductId := none }

/-- Environment of one run: the sign-in credentials read from the process
environment, the sign-in driver environment, the per-item driver
environments, and the cancellation arrival point. -/
structure RunEnv where
  email : String
  password : String
  otpSecret : String
  signInEnv : SignInEnv
  behav : Nat → ItemEnv
  cancelFrom : Option Nat

/-- Outcome of the sign-in call made by the run promise. -/
def signInResult (acct : AccountName) (env : RunEnv) : Except RunErr Unit :=
  (signInAmazon env.email env.password env.otpSecret acct env.signInEnv).2

/-- Result of a settled run promise: the final run state, whether a browser
session was opened, and the states at the iteration boundaries (the state at
the start of the loop followed by the state after each appended outcome). -/
structure RunOutcome where
  state : RunState
  browserOpened : Bool
  boundaries : List LoopState

/-- Loop-state view of the run state at the start of the run. -/
def initialLoopState (st : RunState) : LoopState :=
  { run := st, processed := 0, localLastMessage := none }

/-- Translation of the run promise (route lines 225-373): launch the browser
session, check the credentials, sign in, run the item loop, and settle.  The
credential check happens after `launchAmazonBrowser`, so `browserOpened` is
true on every path of the promise. -/
def runPromise (items : List EntryItem) (acct : AccountName) (env : RunEnv)
    (st0 : RunState) : RunOutcome :=
  if env.email = "" ∨ env.password = "" ∨ env.otpSecret = "" then
    { state := settleCatch st0 (.err "Amazon のサインイン情報が設定されていません。")
        (abortedAt env.cancelFrom 0)
      browserOpened := true
      boundaries := [initialLoopState st0] }
  else
    match signInResult acct env with
    | .error e =>
      { state := settleCatch st0 e (abortedAt env.cancelFrom 0)
        browserOpened := true
        boundaries := [initialLoopState st0] }
    | .ok _ =>
      let stA := { st0 with progress := (items.length, 0) }
      let init := initialLoopState stA
      let lr := runLoop env.behav env.cancelFrom items.length items 0 init
      match lr.2.2 with
      | .exhausted =>
        { state := settleCompleted lr.2.1.run (abortedAt env.cancelFrom items.length)
          browserOpened := true
          boundaries := init :: lr.1 }
      | .cancelled i =>
        { state := settleCatch lr.2.1.run (.err "ユーザーによって処理が中断されました。")
            (abortedAt env.cancelFrom i)
          browserOpened := true
          boundaries := init :: lr.1 }
      | .fatal i m =>
        { state := settleCatch lr.2.1.run (.err m) (abortedAt env.cancelFrom (i + 1))
          browserOpened := true
          boundaries := init :: lr.1 }

/-! ## Start endpoint (`POST` of the route) -/

/-- Raw record of the request body after JavaScript coercion: `jan` is the
`String(...)` value before trimming, `price` and `stock` the `Number(...)`
conversions. -/
structure RawRecord where
  jan : String
  price : JSNum
  stock : JSNum
deriving DecidableEq, Repr

/-- Parsed start request: whether `request.json()` succeeded, the
`EntryItems` array, and the account name (`none` when the supplied value is
not one of the selectable accounts). -/
structure PostRequest where
  parsed : Bool
  entryItems : Option (List RawRecord)
  accountName : Option AccountName
  isHeadless : Bool

/-- Response of the start endpoint: 409 while running, 400 on validation
failure, 202 on acceptance. -/
inductive PostResponse
  | conflictRunning
  | badRequest (msg : String)
  | accepted
deriving DecidableEq, Repr

/-- Model of JavaScript `String.prototype.trim`: strip leading and trailing
whitespace (written over the character list so that it evaluates by
reduction). -/
def jsTrim (s : String) : String :=
  ⟨((s.data.dropWhile Char.isWhitespace).reverse.dropWhile Char.isWhitespace).reverse⟩

/-- Sanitization of one record (route lines 165-182). -/
def sanitizeRecord (r : RawRecord) : EntryItem :=
  { JANCode := jsTrim r.jan, price := r.price, stock := r.stock }

/-- The number validation applied to each sanitized record (route lines
191-199). -/
def invalidNumbers (r : EntryItem) : Bool :=
  !r.price.isFinite || !r.stock.isFinite || r.price.ltZero || r.stock.ltZero

/-- Translation of the `POST` handler (route lines 128-378) composed with
the settled run promise: the returned state is the run state after the
spawned run finishes (for rejected requests it is the unchanged current
state).  The third component records whether a browser session was opened
on behalf of this request. -/
def POST (cur : RunState) (req : PostRequest) (env : RunEnv) :
    PostResponse × RunState × Bool :=
  if cur.status = .running then (.conflictRunning, cur, false)
  else if req.parsed = false then
    (.badRequest "リクエストボディの解析に失敗しました。", cur, false)
  else if (req.entryItems.getD []).length = 0 then
    (.badRequest "出品対象のレコードが存在しません。", cur, false)
  else
    match req.accountName with
    | none => (.badRequest "選択できないアカウント名が指定されました。", cur, false)
    | some acct =>
      if ((req.entryItems.getD []).map sanitizeRecord).any (fun r => r.JANCode = "") then
        (.badRequest "JAN が空のレコードがあります。", cur, false)
      else if ((req.entryItems.getD []).map sanitizeRecord).any invalidNumbers then
        (.badRequest "price と stock には 0 以上の数値を指定してください。", cur, false)
      else
        let out := runPromise ((req.entryItems.getD []).map sanitizeRecord)
          (ensureAccountName (some acct)) env
          (freshRunState ((req.entryItems.getD []).map sanitizeRecord).length)
        (.accepted, out.state, out.browserOpened)

/-! ## Concrete environments used by witnesses and counterexamples -/

/-- Sample input item (the spec's example JAN). -/
def sampleItem : EntryItem :=
  { JANCode := "4549957721409", price := .fin 11800, stock := .fin 5 }

/-- OTP environment in which no OTP prompt ever appears. -/
def quietOtp : OtpEnv :=
  { present := fun _ => false
    fieldVisible := fun _ => .ok ()
    buttonPresent := fun _ => true
    loadOk := fun _ => .ok ()
    gen := fun _ => "000000" }

/-- Search environment for a normal success path. -/
def clearSearchEnv : SearchEnv :=
  { gotoRes := .ok (), searchBoxVisible := .ok (), submitClick := .ok ()
    noResultsPresent := false, expandVisible := .ok (), loadAfterExpand := .ok ()
    brandRestricted := false, secondaryVisible := .ok (), cardVisible := .ok ()
    popupRes := .ok () }

/-- Search environment whose search shows the no-results indicator. -/
def noResultsSearchEnv : SearchEnv :=
  { clearSearchEnv with noResultsPresent := true }

/-- Listing sub-page environment for a normal success path. -/
def clearEnterEnv : EnterEnv :=
  { skuStep := .ok (), katBoxStep := .ok (), inventoryStep := .ok ()
    priceStep := .ok (), submitStep := .ok (), registerVisible := true
    registerClick := .ok () }

/-- Listing sub-page environment whose SKU fill times out. -/
def timeoutEnterEnv : EnterEnv :=
  { clearEnterEnv with skuStep := .error (.timeout "Timeout 10000ms exceeded.") }

/-- Listing sub-page environment whose SKU fill throws a non-timeout error. -/
def fatalEnterEnv : EnterEnv :=
  { clearEnterEnv with skuStep := .error (.err "portal changed") }

/-- Per-item environment of a normal success path. -/
def clearItemEnv : ItemEnv := { search := clearSearchEnv, enter := clearEnterEnv }

/-- Per-item environment that times out in the listing phase. -/
def timeoutItemEnv : ItemEnv := { search := clearSearchEnv, enter := timeoutEnterEnv }

/-- Per-item environment that throws a non-timeout error in the listing
phase. -/
def fatalItemEnv : ItemEnv := { search := clearSearchEnv, enter := fatalEnterEnv }

/-- Sign-in environment for a clear sign-in path. -/
def okSignInEnv : SignInEnv :=
  { gotoRes := .ok (), emailVisible := .ok (), passwordVisible := .ok ()
    loadAfterLogin := .ok (), otp := quietOtp, accountVisible := .ok ()
    regionVisible := .ok (), selectVisible := .ok () }

/-- Sign-in environment in which the credential prompt never appears: the
email visibility wait times out. -/
def noPromptSignInEnv : SignInEnv :=
  { okSignInEnv with emailVisible := .error (.timeout "Timeout 10000ms exceeded.") }

/-- Run environment for a clear batch run. -/
def sampleRunEnv : RunEnv :=
  { email := "seller@example.com", password := "pw", otpSecret := "sec"
    signInEnv := okSignInEnv, behav := fun _ => clearItemEnv, cancelFrom := none }

/-! ## C6: sub-page closure of the listing submitter -/

/-- C6 counterexample: when the SKU fill step raises a timeout, the call
settles with that exception and the sub-page handle has not been closed -
the claimed close-on-every-exit does not hold on the exception path of the
fill/submit steps. -/
theorem enterProductDetails_leak_cex :
    (enterProductDetails sampleItem timeoutEnterEnv).1 =
      .error (.timeout "Timeout 10000ms exceeded.") ∧
    (enterProductDetails sampleItem timeoutEnterEnv).2 = false :=
  ⟨rfl, rfl⟩

/-- C6 (amended): the Listing Submitter closes the sub-page handle on the
InvalidInput branch and on success or exception of the register-click
phase, but not when one of the five earlier fill/submit steps (SKU,
shipping, stock, price, submit) raises: the sub-page is closed exactly when
all five of those steps completed without raising. -/
theorem enterProductDetails_close_iff (item : EntryItem) (env : EnterEnv) :
    (enterProductDetails item env).2 = true ↔
      (env.skuStep = .ok () ∧ env.katBoxStep = .ok () ∧ env.inventoryStep = .ok () ∧
       env.priceStep = .ok () ∧ env.submitStep = .ok ()) := by
  obtain ⟨sku, kat, inv, pr, sub, reg, clk⟩ := env
  cases sku <;> cases kat <;> cases inv <;> cases pr <;> cases sub <;>
    simp_all [enterProductDetails] <;>
    first
      | rfl
      | (cases reg <;> [skip; cases clk] <;> simp [enterProductDetails])

/-! ## C7: sign-in short-circuit when already authenticated -/

/-- C7 counterexample: in the service-layer `signInAmazon` used by the batch
route, an invocation where no credential prompt appears does not return
success immediately - the unconditional visibility wait for the email input
fails and the timeout propagates (only the navigation action has run). -/
theorem signInAmazon_no_shortcircuit_cex :
    signInAmazon "seller@example.com" "pw" "sec" .keyPoint noPromptSignInEnv =
      ([SAct.gotoSignIn], .error (.timeout "Timeout 10000ms exceeded.")) ∧
    (signInAmazon "seller@example.com" "pw" "sec" .keyPoint noPromptSignInEnv).2 ≠
      .ok () := by
  constructor
  · rfl
  · intro h
    simp [signInAmazon, noPromptSignInEnv, okSignInEnv] at h

/-- C7 (amended): only the legacy script's `ensureSignedIn` short-circuits -
when the email input has no match it returns success immediately with no
field filled and no control clicked; the service-layer `signInAmazon` used
by the batch route instead waits unconditionally for the email prompt, and
when that prompt never appears the wait's error propagates with no field
filled. -/
theorem signIn_shortcircuit_split (email password otpSecret : String)
    (acct : AccountName) (env : SignInEnv) (eenv : EnsureEnv)
    (h0 : eenv.emailCount = 0) :
    ensureSignedIn email password eenv = ([], .ok ()) ∧
    (∀ e, env.gotoRes = .ok () → env.emailVisible = .error e →
      signInAmazon email password otpSecret acct env = ([SAct.gotoSignIn], .error e)) := by
  constructor
  · simp [ensureSignedIn, h0]
  · intro e h1 h2
    simp [signInAmazon, h1, h2]

/-- Witness for the amended C7 statement at concrete inputs. -/
theorem signIn_shortcircuit_split_witness :
    ensureSignedIn "seller@example.com" "pw"
      { emailCount := 0, emailVisible := .ok (), nextCount := 1
        passwordVisible := .ok (), loginCount := 1, loadRes := .ok ()
        otpRes := .ok () } = ([], .ok ()) ∧
    signInAmazon "seller@example.com" "pw" "sec" .keyPoint noPromptSignInEnv =
      ([SAct.gotoSignIn], .error (.timeout "Timeout 10000ms exceeded.")) := by
  obtain ⟨h1, h2⟩ := signIn_shortcircuit_split "seller@example.com" "pw" "sec"
    .keyPoint noPromptSignInEnv
    { emailCount := 0, emailVisible := .ok (), nextCount := 1
      passwordVisible := .ok (), loginCount := 1, loadRes := .ok ()
      otpRes := .ok () } rfl
  exact ⟨h1, h2 (.timeout "Timeout 10000ms exceeded.") rfl rfl⟩

/-! ## C8: no-results classification is terminal -/

/-- C8: when the no-results indicator is present, the classifier returns the
`NotFound` row for that identifier and performs none of the later steps: it
does not expand the result row, does not probe the brand restriction, does
not open the listing sub-page, and does not return the success outcome. -/
theorem search_noResults_terminal (jan : String) (env : SearchEnv)
    (h1 : env.gotoRes = .ok ()) (h2 : env.searchBoxVisible = .ok ())
    (h3 : env.submitClick = .ok ()) (h4 : env.noResultsPresent = true) :
    searchAinoriProduct jan env =
      ([DrvAct.gotoSearch, DrvAct.clickSearchBox, DrvAct.fillSearchBox jan,
        DrvAct.clickSubmit, DrvAct.checkNoResults],
       .ok (.errRes (notFoundResult jan))) ∧
    DrvAct.expandRow ∉ (searchAinoriProduct jan env).1 ∧
    DrvAct.brandProbe ∉ (searchAinoriProduct jan env).1 ∧
    DrvAct.clickListProduct ∉ (searchAinoriProduct jan env).1 ∧
    (searchAinoriProduct jan env).2 ≠ .ok .listing := by
  have key : searchAinoriProduct jan env =
      ([DrvAct.gotoSearch, DrvAct.clickSearchBox, DrvAct.fillSearchBox jan,
        DrvAct.clickSubmit, DrvAct.checkNoResults],
       .ok (.errRes (notFoundResult jan))) := by
    simp [searchAinoriProduct, h1, h2, h3, h4]
  refine ⟨key, ?_, ?_, ?_, ?_⟩ <;> rw [key] <;> simp

/-- Witness for C8 at a concrete identifier and environment. -/
theorem search_noResults_terminal_witness :
    searchAinoriProduct "4549957721409" noResultsSearchEnv =
      ([DrvAct.gotoSearch, DrvAct.clickSearchBox, DrvAct.fillSearchBox "4549957721409",
        DrvAct.clickSubmit, DrvAct.checkNoResults],
       .ok (.errRes (notFoundResult "4549957721409"))) :=
  (search_noResults_terminal "4549957721409" noResultsSearchEnv rfl rfl rfl rfl).1

/-! ## C9: single-run guard of the start endpoint -/

/-- C9: a start request issued while the run state's status is running is
rejected with the conflict response, no browser session is opened on its
behalf, and the existing run state is returned unchanged. -/
theorem post_running_guard (cur : RunState) (req : PostRequest) (env : RunEnv)
    (h : cur.status = .running) :
    POST cur req env = (.conflictRunning, cur, false) := by
  simp [POST, h]

/-- Witness for C9: a concrete start request against a running state. -/
theorem post_running_guard_witness :
    POST (freshRunState 1)
      { parsed := true
        entryItems := some [{ jan := "4549957721409", price := .fin 11800, stock := .fin 5 }]
        accountName := some .keyPoint
        isHeadless := true } sampleRunEnv = (.conflictRunning, freshRunState 1, false) :=
  post_running_guard (freshRunState 1) _ sampleRunEnv rfl

/-! ## C4: OTP sub-protocol -/

/-- C4: with the waits and buttons of the OTP page behaving (no driver
failure), the OTP sub-protocol skips when no prompt is present; otherwise it
runs at most 3 attempts, each clearing the field, filling a freshly
generated code and submitting; if the prompt disappears after attempt
`K + 1` (for any `K < 3`, including the 3rd attempt) the challenge is
solved; if the prompt persists after all 3 attempts it fails with the
OTP-exhausted error. -/
theorem otp_protocol (secret : String) (env : OtpEnv)
    (hs : secret ≠ "")
    (hv : ∀ n, env.fieldVisible n = .ok ())
    (hb : ∀ n, env.buttonPresent n = true)
    (hl : ∀ n, env.loadOk n = .ok ()) :
    (env.present 0 = false → handleOtpChallenge secret env = ([], .ok ())) ∧
    (∀ K, K < 3 → (∀ n, n ≤ K → env.present n = true) → env.present (K + 1) = false →
      handleOtpChallenge secret env = (otpRounds env (K + 1), .ok ())) ∧
    ((∀ n, n ≤ 3 → env.present n = true) →
      handleOtpChallenge secret env = (otpRounds env 3, .error (.err otpExhaustedMsg))) := by
  refine ⟨?_, ?_, ?_⟩
  · intro h0
    simp [handleOtpChallenge, h0]
  · intro K hK hpre hafter
    have h0 : env.present 0 = true := hpre 0 (Nat.zero_le _)
    interval_cases K
    · simp [handleOtpChallenge, h0, hs, otpAttemptLoop, hv, hb, hl, hafter, otpRounds]
    · have h1 : env.present 1 = true := hpre 1 (by omega)
      simp [handleOtpChallenge, h0, h1, hs, otpAttemptLoop, hv, hb, hl, hafter, otpRounds]
    · have h1 : env.present 1 = true := hpre 1 (by omega)
      have h2 : env.present 2 = true := hpre 2 (by omega)
      simp [handleOtpChallenge, h0, h1, h2, hs, otpAttemptLoop, hv, hb, hl, hafter, otpRounds]
  · intro hall
    have h0 : env.present 0 = true := hall 0 (by omega)
    have h1 : env.present 1 = true := hall 1 (by omega)
    have h2 : env.present 2 = true := hall 2 (by omega)
    have h3 : env.present 3 = true := hall 3 (by omega)
    simp [handleOtpChallenge, h0, h1, h2, h3, hs, otpAttemptLoop, hv, hb, hl, otpRounds]

/-- OTP environment whose prompt persists through the first two submissions
and disappears after the third (a generator invalid twice, then valid). -/
def thirdTryOtp : OtpEnv :=
  { present := fun n => decide (n < 3)
    fieldVisible := fun _ => .ok ()
    buttonPresent := fun _ => true
    loadOk := fun _ => .ok ()
    gen := fun n => toString n }

/-- Witness for C4: the prompt disappears after the 3rd attempt and the
challenge is solved with three fill/submit rounds of freshly generated
codes. -/
theorem otp_protocol_witness :
    handleOtpChallenge "sec" thirdTryOtp = (otpRounds thirdTryOtp 3, .ok ()) := by
  have h := (otp_protocol "sec" thirdTryOtp (by decide)
    (fun n => rfl) (fun n => rfl) (fun n => rfl)).2.1 2 (by omega)
    (fun n hn => by simp [thirdTryOtp]; omega) (by simp [thirdTryOtp])
  exact h

lemma searchAinori_errRes_jan (jan : String) (env : SearchEnv) (r : EntryResult)
    (h : (searchAinoriProduct jan env).2 = .ok (.errRes r)) : r.JANCode = jan := by
  unfold searchAinoriProduct at h
  repeat' split at h
  all_goals first
    | (cases h; rfl)
    | simp_all

lemma enterProductDetails_some_jan (item : EntryItem) (env : EnterEnv) (r : EntryResult)
    (h : (enterProductDetails item env).1 = .ok (some r)) : r.JANCode = item.JANCode := by
  unfold enterProductDetails at h
  repeat' split at h
  all_goals first
    | (cases h; rfl)
    | simp_all

lemma stepOutcome_jan (record : EntryItem) (env : ItemEnv) (r : EntryResult) (flag : Bool)
    (h : stepOutcome record env = .ok (r, flag)) : r.JANCode = record.JANCode := by
  unfold stepOutcome at h
  split at h
  · exact absurd h (by simp)
  · next hs =>
    simp only [Except.ok.injEq, Prod.mk.injEq] at h
    obtain ⟨h1, _⟩ := h
    subst h1
    exact searchAinori_errRes_jan _ _ _ hs
  · split at h
    · exact absurd h (by simp)
    · next he =>
      simp only [Except.ok.injEq, Prod.mk.injEq] at h
      obtain ⟨h1, _⟩ := h
      subst h1
      exact enterProductDetails_some_jan _ _ _ he
    · simp only [Except.ok.injEq, Prod.mk.injEq] at h
      obtain ⟨h1, _⟩ := h
      subst h1
      rfl

lemma runLoop_spec (behav : Nat → ItemEnv) (cancelFrom : Option Nat) (total : Nat) :
    ∀ (items : List EntryItem) (i : Nat) (st : LoopState),
      (runLoop behav cancelFrom total items i st).2.1.run.results =
        st.run.results ++ (expectedRun behav cancelFrom items i).1 ∧
      (runLoop behav cancelFrom total items i st).2.2 =
        (expectedRun behav cancelFrom items i).2 ∧
      (runLoop behav cancelFrom total items i st).2.1.processed =
        st.processed + (expectedRun behav cancelFrom items i).1.length := by
  intro items
  induction items with
  | nil => intro i st; simp [runLoop, expectedRun]
  | cons record rest ih =>
    intro i st
    cases hab : abortedAt cancelFrom i with
    | true => simp [runLoop, expectedRun, hab]
    | false =>
      cases hstep : stepOutcome record (behav i) with
      | ok pr =>
        obtain ⟨r, flag⟩ := pr
        have := ih (i + 1)
        cases flag <;>
          simp_all [runLoop, expectedRun, hab, hstep, advanceProcessed,
            ensureProgressUpdate, pushResult] <;> omega
      | error e =>
        cases e with
        | timeout m =>
          have := ih (i + 1)
          simp_all [runLoop, expectedRun, hab, hstep, isTimeoutError,
            advanceProcessed, ensureProgressUpdate, pushResult] <;> omega
        | err m =>
          simp_all [runLoop, expectedRun, hab, hstep, isTimeoutError,
            advanceProcessed, ensureProgressUpdate, pushResult, RunErr.message]

lemma runLoop_boundaries (behav : Nat → ItemEnv) (cancelFrom : Option Nat) (total : Nat) :
    ∀ (items : List EntryItem) (i : Nat) (st : LoopState) (k : Nat) (s : LoopState),
      ((runLoop behav cancelFrom total items i st).1)[k]? = some s →
      s.run.results.length = st.run.results.length + (k + 1) ∧
      s.processed = st.processed + (k + 1) ∧
      s.run.progress = (total, st.processed + (k + 1)) := by
  intro items
  induction items with
  | nil => intro i st k s h; simp [runLoop] at h
  | cons record rest ih =>
    intro i st k s h
    cases hab : abortedAt cancelFrom i with
    | true => rw [runLoop, if_pos hab] at h; simp at h
    | false =>
      cases hstep : stepOutcome record (behav i) with
      | ok pr =>
        obtain ⟨r, flag⟩ := pr
        rw [runLoop, if_neg (by simp [hab])] at h
        simp only [hstep] at h
        cases k with
        | zero =>
          cases flag <;>
            (simp only [List.getElem?_cons_zero, Option.some.injEq] at h; subst h;
             refine ⟨?_, ?_, ?_⟩ <;>
               simp [advanceProcessed, ensureProgressUpdate, pushResult])
        | succ k' =>
          cases flag <;>
            (simp only [List.getElem?_cons_succ] at h;
             have := ih (i + 1) _ k' s h;
             simp only [advanceProcessed, ensureProgressUpdate, pushResult] at this;
             obtain ⟨h1, h2, h3⟩ := this;
             refine ⟨?_, ?_, ?_⟩ <;> simp_all <;> omega)
      | error e =>
        rw [runLoop, if_neg (by simp [hab])] at h
        simp only [hstep] at h
        split at h
        · cases k with
          | zero =>
            simp only [List.getElem?_cons_zero, Option.some.injEq] at h; subst h
            refine ⟨?_, ?_, ?_⟩ <;>
              simp [advanceProcessed, ensureProgressUpdate, pushResult]
          | succ k' =>
            simp only [List.getElem?_cons_succ] at h
            have := ih (i + 1) _ k' s h
            simp only [advanceProcessed, ensureProgressUpdate, pushResult] at this
            obtain ⟨h1, h2, h3⟩ := this
            refine ⟨?_, ?_, ?_⟩ <;> simp_all <;> omega
        · cases k with
          | zero =>
            simp only [List.getElem?_cons_zero, Option.some.injEq] at h
            cases h
            refine ⟨?_, ?_, ?_⟩ <;>
              simp [advanceProcessed, ensureProgressUpdate, pushResult]
          | succ k' =>
            simp at h

lemma expectedRun_clear (behav : Nat → ItemEnv) (cancelFrom : Option Nat) :
    ∀ (items : List EntryItem) (i : Nat),
      (∀ k, k < items.length → abortedAt cancelFrom (i + k) = false) →
      (∀ k r, items[k]? = some r → isFatalStep r (behav (i + k)) = false) →
      (expectedRun behav cancelFrom items i).2 = .exhausted ∧
      (expectedRun behav cancelFrom items i).1.length = items.length ∧
      (∀ k : Nat, ((expectedRun behav cancelFrom items i).1[k]?).map EntryResult.JANCode =
        (items[k]?).map EntryItem.JANCode) := by
  intro items
  induction items with
  | nil => intro i _ _; simp [expectedRun]
  | cons record rest ih =>
    intro i habort hfatal
    have hab0 : abortedAt cancelFrom i = false := by
      have := habort 0 (by simp)
      simpa using this
    have habrec : ∀ k, k < rest.length → abortedAt cancelFrom (i + 1 + k) = false := by
      intro k hk
      have := habort (k + 1) (by simp; omega)
      have e : i + (k + 1) = i + 1 + k := by omega
      rwa [e] at this
    have hrec : ∀ k r, rest[k]? = some r → isFatalStep r (behav (i + 1 + k)) = false := by
      intro k r hk
      have := hfatal (k + 1) r (by simpa using hk)
      have e : i + (k + 1) = i + 1 + k := by omega
      rwa [e] at this
    obtain ⟨e1, e2, e3⟩ := ih (i + 1) habrec hrec
    cases hstep : stepOutcome record (behav i) with
    | ok pr =>
      obtain ⟨r, flag⟩ := pr
      have hjan := stepOutcome_jan record (behav i) r flag hstep
      refine ⟨?_, ?_, ?_⟩
      · simp [expectedRun, hab0, hstep, e1]
      · simp [expectedRun, hab0, hstep, e2]
      · intro k
        cases k with
        | zero => simp [expectedRun, hab0, hstep, enrichResult, hjan]
        | succ k' =>
          simp only [expectedRun, hab0, hstep, Bool.false_eq_true, if_false,
            List.getElem?_cons_succ]
          exact e3 k'
    | error e =>
      cases e with
      | timeout m =>
        refine ⟨?_, ?_, ?_⟩
        · simp [expectedRun, hab0, hstep, isTimeoutError, e1]
        · simp [expectedRun, hab0, hstep, isTimeoutError, e2]
        · intro k
          cases k with
          | zero =>
            simp [expectedRun, hab0, hstep, isTimeoutError, enrichResult, timeoutResult]
          | succ k' =>
            simp only [expectedRun, hab0, hstep, Bool.false_eq_true, if_false,
              List.getElem?_cons_succ, isTimeoutError, if_true]
            exact e3 k'
      | err m =>
        exfalso
        have := hfatal 0 record (by simp)
        simp [isFatalStep, hstep, isTimeoutError] at this

lemma expectedRun_fatal (behav : Nat → ItemEnv) (cancelFrom : Option Nat) :
    ∀ (items : List EntryItem) (i j : Nat) (rec : EntryItem),
      items[j]? = some rec →
      isFatalStep rec (behav (i + j)) = true →
      (∀ k r, k < j → items[k]? = some r → isFatalStep r (behav (i + k)) = false) →
      (∀ k, k ≤ j → abortedAt cancelFrom (i + k) = false) →
      (expectedRun behav cancelFrom items i).2 =
        .fatal (i + j) (stepErrMsg rec (behav (i + j))) ∧
      (expectedRun behav cancelFrom items i).1.length = j + 1 ∧
      (expectedRun behav cancelFrom items i).1[j]? =
        some (enrichResult (fatalResult rec.JANCode (stepErrMsg rec (behav (i + j)))) rec) ∧
      (∀ k r, k < j → items[k]? = some r → isTimeoutStep r (behav (i + k)) = true →
        (expectedRun behav cancelFrom items i).1[k]? =
          some (enrichResult (timeoutResult r.JANCode) r)) := by
  intro items
  induction items with
  | nil => intro i j rec hj; simp at hj
  | cons record rest ih =>
    intro i j rec hj hfat hpre habort
    have hab0 : abortedAt cancelFrom i = false := by
      have := habort 0 (by omega)
      simpa using this
    cases j with
    | zero =>
      simp only [List.getElem?_cons_zero, Option.some.injEq] at hj
      subst hj
      simp only [Nat.add_zero] at hfat ⊢
      cases hstep : stepOutcome record (behav i) with
      | ok pr => simp [isFatalStep, hstep] at hfat
      | error e =>
        cases e with
        | timeout m => simp [isFatalStep, hstep, isTimeoutError] at hfat
        | err m =>
          refine ⟨?_, ?_, ?_, ?_⟩
          · simp [expectedRun, hab0, hstep, isTimeoutError, stepErrMsg, RunErr.message]
          · simp [expectedRun, hab0, hstep, isTimeoutError]
          · simp [expectedRun, hab0, hstep, isTimeoutError, stepErrMsg, RunErr.message]
          · intro k r hk; omega
    | succ j' =>
      simp only [List.getElem?_cons_succ] at hj
      have hfat' : isFatalStep rec (behav (i + 1 + j')) = true := by
        have e : i + (j' + 1) = i + 1 + j' := by omega
        rwa [e] at hfat
      have hpre' : ∀ k r, k < j' → rest[k]? = some r →
          isFatalStep r (behav (i + 1 + k)) = false := by
        intro k r hk hkr
        have := hpre (k + 1) r (by omega) (by simpa using hkr)
        have e : i + (k + 1) = i + 1 + k := by omega
        rwa [e] at this
      have habort' : ∀ k, k ≤ j' → abortedAt cancelFrom (i + 1 + k) = false := by
        intro k hk
        have := habort (k + 1) (by omega)
        have e : i + (k + 1) = i + 1 + k := by omega
        rwa [e] at this
      obtain ⟨f1, f2, f3, f4⟩ := ih (i + 1) j' rec hj hfat' hpre' habort'
      have hrec0 : isFatalStep record (behav i) = false := by
        have := hpre 0 record (by omega) (by simp)
        simpa using this
      have eidx : i + 1 + j' = i + (j' + 1) := by omega
      cases hstep : stepOutcome record (behav i) with
      | ok pr =>
        obtain ⟨r, flag⟩ := pr
        refine ⟨?_, ?_, ?_, ?_⟩
        · rw [← eidx]
          simp [expectedRun, hab0, hstep, f1]
        · simp [expectedRun, hab0, hstep, f2]
        · rw [← eidx]
          simp only [expectedRun, hab0, Bool.false_eq_true, if_false, hstep,
            List.getElem?_cons_succ]
          exact f3
        · intro k r hk hkr htim
          cases k with
          | zero =>
            exfalso
            simp only [List.getElem?_cons_zero, Option.some.injEq] at hkr
            subst hkr
            simp [isTimeoutStep, hstep] at htim
          | succ k' =>
            simp only [List.getElem?_cons_succ] at hkr
            have e : i + (k' + 1) = i + 1 + k' := by omega
            rw [e] at htim
            have := f4 k' r (by omega) hkr htim
            simp only [expectedRun, hab0, Bool.false_eq_true, if_false, hstep,
              List.getElem?_cons_succ]
            exact this
      | error e =>
        cases e with
        | timeout m =>
          refine ⟨?_, ?_, ?_, ?_⟩
          · rw [← eidx]
            simp [expectedRun, hab0, hstep, isTimeoutError, f1]
          · simp [expectedRun, hab0, hstep, isTimeoutError, f2]
          · rw [← eidx]
            simp only [expectedRun, hab0, Bool.false_eq_true, if_false, hstep,
              isTimeoutError, if_true, List.getElem?_cons_succ]
            exact f3
          · intro k r hk hkr htim
            cases k with
            | zero =>
              simp only [List.getElem?_cons_zero, Option.some.injEq] at hkr
              subst hkr
              simp [expectedRun, hab0, hstep, isTimeoutError]
            | succ k' =>
              simp only [List.getElem?_cons_succ] at hkr
              have e : i + (k' + 1) = i + 1 + k' := by omega
              rw [e] at htim
              have := f4 k' r (by omega) hkr htim
              simp only [expectedRun, hab0, Bool.false_eq_true, if_false, hstep,
                isTimeoutError, if_true, List.getElem?_cons_succ]
              exact this
        | err m => simp [isFatalStep, hstep, isTimeoutError] at hrec0

lemma expectedRun_cancelled (behav : Nat → ItemEnv) :
    ∀ (items : List EntryItem) (i c : Nat),
      i ≤ c → c - i < items.length →
      (∀ k r, k < c - i → items[k]? = some r → isFatalStep r (behav (i + k)) = false) →
      (expectedRun behav (some c) items i).2 = .cancelled c ∧
      (expectedRun behav (some c) items i).1.length = c - i ∧
      (∀ k r, k < c - i → items[k]? = some r →
        ((expectedRun behav (some c) items i).1[k]?).map EntryResult.JANCode =
          some r.JANCode) := by
  intro items
  induction items with
  | nil => intro i c h1 h2; simp at h2
  | cons record rest ih =>
    intro i c hic hlen hpre
    by_cases hci : c ≤ i
    · have hceq : c = i := by omega
      subst hceq
      refine ⟨?_, ?_, ?_⟩
      · simp [expectedRun, abortedAt]
      · simp [expectedRun, abortedAt]
      · intro k r hk; omega
    · have hab0 : abortedAt (some c) i = false := by
        simp [abortedAt]; omega
      have hic' : i + 1 ≤ c := by omega
      have hlen' : c - (i + 1) < rest.length := by
        simp only [List.length_cons] at hlen
        omega
      have hpre' : ∀ k r, k < c - (i + 1) → rest[k]? = some r →
          isFatalStep r (behav (i + 1 + k)) = false := by
        intro k r hk hkr
        have := hpre (k + 1) r (by omega) (by simpa using hkr)
        have e : i + (k + 1) = i + 1 + k := by omega
        rwa [e] at this
      obtain ⟨c1, c2, c3⟩ := ih (i + 1) c hic' hlen' hpre'
      have hrec0 : isFatalStep record (behav i) = false := by
        have := hpre 0 record (by omega) (by simp)
        simpa using this
      cases hstep : stepOutcome record (behav i) with
      | ok pr =>
        obtain ⟨r, flag⟩ := pr
        have hjan := stepOutcome_jan record (behav i) r flag hstep
        refine ⟨?_, ?_, ?_⟩
        · simp [expectedRun, hab0, hstep, c1]
        · simp only [expectedRun, hab0, Bool.false_eq_true, if_false, hstep,
            List.length_cons, c2]
          omega
        · intro k r' hk hkr
          cases k with
          | zero =>
            simp only [List.getElem?_cons_zero, Option.some.injEq] at hkr
            subst hkr
            simp [expectedRun, hab0, hstep, enrichResult, hjan]
          | succ k' =>
            simp only [List.getElem?_cons_succ] at hkr
            have := c3 k' r' (by omega) hkr
            simp only [expectedRun, hab0, Bool.false_eq_true, if_false, hstep,
              List.getElem?_cons_succ]
            exact this
      | error e =>
        cases e with
        | timeout m =>
          refine ⟨?_, ?_, ?_⟩
          · simp [expectedRun, hab0, hstep, isTimeoutError, c1]
          · simp only [expectedRun, hab0, Bool.false_eq_true, if_false, hstep,
              isTimeoutError, if_true, List.length_cons, c2]
            omega
          · intro k r' hk hkr
            cases k with
            | zero =>
              simp only [List.getElem?_cons_zero, Option.some.injEq] at hkr
              subst hkr
              simp [expectedRun, hab0, hstep, isTimeoutError, enrichResult, timeoutResult]
            | succ k' =>
              simp only [List.getElem?_cons_succ] at hkr
              have := c3 k' r' (by omega) hkr
              simp only [expectedRun, hab0, Bool.false_eq_true, if_false, hstep,
                isTimeoutError, if_true, List.getElem?_cons_succ]
              exact this
        | err m => simp [isFatalStep, hstep, isTimeoutError] at hrec0

lemma settleCatch_results (st : RunState) (e : RunErr) (b : Bool) :
    (settleCatch st e b).results = st.results := by
  cases b <;> rfl

lemma settleCatch_status (st : RunState) (e : RunErr) (b : Bool) :
    (settleCatch st e b).status = if b then .aborted else .error := by
  cases b <;> rfl

lemma settleCatch_error (st : RunState) (e : RunErr) :
    (settleCatch st e false).error = some e.message := rfl

lemma settleCompleted_results (st : RunState) (b : Bool) :
    (settleCompleted st b).results = st.results := rfl

lemma settleCompleted_status (st : RunState) (b : Bool) :
    (settleCompleted st b).status = if b then .aborted else .completed := rfl

lemma runPromise_completed (items : List EntryItem) (acct : AccountName) (env : RunEnv)
    (st0 : RunState)
    (he : env.email ≠ "") (hp : env.password ≠ "") (ho : env.otpSecret ≠ "")
    (hs : signInResult acct env = .ok ())
    (hex : (expectedRun env.behav env.cancelFrom items 0).2 = .exhausted)
    (hcf : env.cancelFrom = none) :
    (runPromise items acct env st0).state.status = .completed ∧
    (runPromise items acct env st0).state.results =
      st0.results ++ (expectedRun env.behav env.cancelFrom items 0).1 := by
  have hcond : ¬(env.email = "" ∨ env.password = "" ∨ env.otpSecret = "") := by
    simp [he, hp, ho]
  obtain ⟨l1, l2, l3⟩ := runLoop_spec env.behav env.cancelFrom items.length items 0
    (initialLoopState { st0 with progress := (items.length, 0) })
  have hexit : (runLoop env.behav env.cancelFrom items.length items 0
      (initialLoopState { st0 with progress := (items.length, 0) })).2.2 =
      LoopExit.exhausted := l2.trans hex
  simp only [runPromise, if_neg hcond, hs]
  simp only [hexit]
  refine ⟨?_, ?_⟩
  · rw [settleCompleted_status, hcf]
    simp [abortedAt]
  · rw [settleCompleted_results, l1]
    rfl

lemma runPromise_fatal (items : List EntryItem) (acct : AccountName) (env : RunEnv)
    (st0 : RunState) (j : Nat) (m : String)
    (he : env.email ≠ "") (hp : env.password ≠ "") (ho : env.otpSecret ≠ "")
    (hs : signInResult acct env = .ok ())
    (hex : (expectedRun env.behav env.cancelFrom items 0).2 = .fatal j m)
    (hnab : abortedAt env.cancelFrom (j + 1) = false) :
    (runPromise items acct env st0).state.status = .error ∧
    (runPromise items acct env st0).state.error = some m ∧
    (runPromise items acct env st0).state.results =
      st0.results ++ (expectedRun env.behav env.cancelFrom items 0).1 := by
  have hcond : ¬(env.email = "" ∨ env.password = "" ∨ env.otpSecret = "") := by
    simp [he, hp, ho]
  obtain ⟨l1, l2, l3⟩ := runLoop_spec env.behav env.cancelFrom items.length items 0
    (initialLoopState { st0 with progress := (items.length, 0) })
  have hexit : (runLoop env.behav env.cancelFrom items.length items 0
      (initialLoopState { st0 with progress := (items.length, 0) })).2.2 =
      LoopExit.fatal j m := l2.trans hex
  simp only [runPromise, if_neg hcond, hs]
  simp only [hexit]
  refine ⟨?_, ?_, ?_⟩
  · rw [settleCatch_status, hnab]
    rfl
  · rw [hnab, settleCatch_error]
    rfl
  · rw [settleCatch_results, l1]
    rfl

lemma runPromise_cancelled (items : List EntryItem) (acct : AccountName) (env : RunEnv)
    (st0 : RunState) (c : Nat)
    (he : env.email ≠ "") (hp : env.password ≠ "") (ho : env.otpSecret ≠ "")
    (hs : signInResult acct env = .ok ())
    (hex : (expectedRun env.behav env.cancelFrom items 0).2 = .cancelled c)
    (hab : abortedAt env.cancelFrom c = true) :
    (runPromise items acct env st0).state.status = .aborted ∧
    (runPromise items acct env st0).state.results =
      st0.results ++ (expectedRun env.behav env.cancelFrom items 0).1 := by
  have hcond : ¬(env.email = "" ∨ env.password = "" ∨ env.otpSecret = "") := by
    simp [he, hp, ho]
  obtain ⟨l1, l2, l3⟩ := runLoop_spec env.behav env.cancelFrom items.length items 0
    (initialLoopState { st0 with progress := (items.length, 0) })
  have hexit : (runLoop env.behav env.cancelFrom items.length items 0
      (initialLoopState { st0 with progress := (items.length, 0) })).2.2 =
      LoopExit.cancelled c := l2.trans hex
  simp only [runPromise, if_neg hcond, hs]
  simp only [hexit]
  refine ⟨?_, ?_⟩
  · rw [settleCatch_status, hab]
    rfl
  · rw [settleCatch_results, l1]
    rfl

/-- C2: for every batch whose item loop runs to normal exhaustion (credentials
present, sign-in succeeded, no cancellation requested, and no item raising a
non-timeout error), the results sequence has exactly one outcome per input
item in input order - the lengths agree and the outcome at every index
carries the identifier of the item at that index - and the final status is
completed. -/
theorem batch_completed_spec (items : List EntryItem) (acct : AccountName) (env : RunEnv)
    (hcf : env.cancelFrom = none)
    (he : env.email ≠ "") (hp : env.password ≠ "") (ho : env.otpSecret ≠ "")
    (hs : signInResult acct env = .ok ())
    (hnf : ∀ k r, items[k]? = some r → isFatalStep r (env.behav k) = false) :
    (runPromise items acct env (freshRunState items.length)).state.results.length =
      items.length ∧
    (∀ k : Nat,
      ((runPromise items acct env (freshRunState items.length)).state.results[k]?).map
        EntryResult.JANCode = (items[k]?).map EntryItem.JANCode) ∧
    (runPromise items acct env (freshRunState items.length)).state.status = .completed := by
  have habort : ∀ k, k < items.length → abortedAt env.cancelFrom (0 + k) = false := by
    intro k _
    rw [hcf]
    rfl
  have hfatal : ∀ k r, items[k]? = some r → isFatalStep r (env.behav (0 + k)) = false := by
    intro k r hk
    simpa using hnf k r hk
  obtain ⟨e1, e2, e3⟩ := expectedRun_clear env.behav env.cancelFrom items 0 habort hfatal
  obtain ⟨hst, hres⟩ :=
    runPromise_completed items acct env (freshRunState items.length) he hp ho hs e1 hcf
  refine ⟨?_, ?_, hst⟩
  · rw [hres]
    simpa [freshRunState] using e2
  · intro k
    rw [hres]
    simpa [freshRunState] using e3 k

theorem batch_completed_spec_witness :
    (runPromise [sampleItem] .keyPoint sampleRunEnv (freshRunState 1)).state.results.length = 1 ∧
    (runPromise [sampleItem] .keyPoint sampleRunEnv (freshRunState 1)).state.status = .completed := by
  have h := batch_completed_spec [sampleItem] .keyPoint sampleRunEnv rfl
    (by decide) (by decide) (by decide) rfl
    (fun k r hk => by
      cases k with
      | zero =>
        simp only [List.getElem?_cons_zero, Option.some.injEq] at hk
        subst hk
        rfl
      | succ n => simp at hk)
  exact ⟨by simpa using h.1, h.2.2⟩

/-- C1: per-item failure policy of the batch loop (no cancellation
requested, sign-in succeeded).  If item `j` is the first to raise a
non-timeout error then every earlier item that raised a timeout has a
TimedOut outcome at its own index and the loop continued past it, the batch
stops at item `j` with exactly `j + 1` outcomes, the triggering item's error
outcome (carrying the thrown message) is the last entry in results, and the
run's final status is error (the message is also recorded at the run
level). -/
theorem batch_failure_policy (items : List EntryItem) (acct : AccountName) (env : RunEnv)
    (hcf : env.cancelFrom = none)
    (he : env.email ≠ "") (hp : env.password ≠ "") (ho : env.otpSecret ≠ "")
    (hs : signInResult acct env = .ok ())
    (j : Nat) (rec : EntryItem)
    (hj : items[j]? = some rec)
    (hfat : isFatalStep rec (env.behav j) = true)
    (hpre : ∀ k r, k < j → items[k]? = some r → isFatalStep r (env.behav k) = false) :
    (runPromise items acct env (freshRunState items.length)).state.results.length = j + 1 ∧
    (runPromise items acct env (freshRunState items.length)).state.results.getLast? =
      some (enrichResult (fatalResult rec.JANCode (stepErrMsg rec (env.behav j))) rec) ∧
    (runPromise items acct env (freshRunState items.length)).state.status = .error ∧
    (runPromise items acct env (freshRunState items.length)).state.error =
      some (stepErrMsg rec (env.behav j)) ∧
    (∀ k r, k < j → items[k]? = some r → isTimeoutStep r (env.behav k) = true →
      (runPromise items acct env (freshRunState items.length)).state.results[k]? =
        some (enrichResult (timeoutResult r.JANCode) r)) := by
  have hfat' : isFatalStep rec (env.behav (0 + j)) = true := by simpa using hfat
  have hpre' : ∀ k r, k < j → items[k]? = some r →
      isFatalStep r (env.behav (0 + k)) = false := by
    intro k r hk hkr
    simpa using hpre k r hk hkr
  have habort : ∀ k, k ≤ j → abortedAt env.cancelFrom (0 + k) = false := by
    intro k _
    rw [hcf]
    rfl
  obtain ⟨f1, f2, f3, f4⟩ :=
    expectedRun_fatal env.behav env.cancelFrom items 0 j rec hj hfat' hpre' habort
  simp only [Nat.zero_add] at f1 f3 f4
  have hnab : abortedAt env.cancelFrom (j + 1) = false := by
    rw [hcf]
    rfl
  obtain ⟨hst, herr, hres⟩ :=
    runPromise_fatal items acct env (freshRunState items.length) j
      (stepErrMsg rec (env.behav j)) he hp ho hs f1 hnab
  have hresults : (runPromise items acct env (freshRunState items.length)).state.results =
      (expectedRun env.behav env.cancelFrom items 0).1 := by
    rw [hres]
    simp [freshRunState]
  refine ⟨?_, ?_, hst, herr, ?_⟩
  · rw [hresults, f2]
  · rw [hresults, List.getLast?_eq_getElem?, f2]
    simpa using f3
  · intro k r hk hkr htim
    rw [hresults]
    exact f4 k r hk hkr (by simpa using htim)

/-- Run environment whose first item times out and whose second item raises
a non-timeout error. -/
def failRunEnv : RunEnv :=
  { sampleRunEnv with behav := fun i => if i = 0 then timeoutItemEnv else fatalItemEnv }

theorem batch_failure_policy_witness :
    (runPromise [sampleItem, sampleItem] .keyPoint failRunEnv (freshRunState 2)).state.results.length = 2 ∧
    (runPromise [sampleItem, sampleItem] .keyPoint failRunEnv (freshRunState 2)).state.status = .error ∧
    (runPromise [sampleItem, sampleItem] .keyPoint failRunEnv (freshRunState 2)).state.results[0]? =
      some (enrichResult (timeoutResult sampleItem.JANCode) sampleItem) := by
  have h := batch_failure_policy [sampleItem, sampleItem] .keyPoint failRunEnv rfl
    (by decide) (by decide) (by decide) rfl 1 sampleItem rfl rfl
    (fun k r hk hkr => by
      interval_cases k
      simp only [List.getElem?_cons_zero, Option.some.injEq] at hkr
      subst hkr
      rfl)
  refine ⟨by simpa using h.1, h.2.2.1, ?_⟩
  exact h.2.2.2.2 0 sampleItem (by omega) rfl rfl

/-- C3: cancellation is checked at the top of each per-item iteration.  When
the request is first observed at the check of item index `c` (within range,
no earlier fatal error), the item at index `c` and all items after it are
never processed and produce no outcome: results has exactly the `c` outcomes
of the items before the abort point (in order, with their identifiers),
`len(results) <= len(items)`, and the run's final status is aborted. -/
theorem batch_cancellation_spec (items : List EntryItem) (acct : AccountName) (env : RunEnv)
    (he : env.email ≠ "") (hp : env.password ≠ "") (ho : env.otpSecret ≠ "")
    (hs : signInResult acct env = .ok ())
    (c : Nat) (hcf : env.cancelFrom = some c) (hcn : c < items.length)
    (hpre : ∀ k r, k < c → items[k]? = some r → isFatalStep r (env.behav k) = false) :
    (runPromise items acct env (freshRunState items.length)).state.results.length = c ∧
    (runPromise items acct env (freshRunState items.length)).state.results.length ≤
      items.length ∧
    (runPromise items acct env (freshRunState items.length)).state.status = .aborted ∧
    (∀ k : Nat, c ≤ k →
      (runPromise items acct env (freshRunState items.length)).state.results[k]? = none) ∧
    (∀ k r, k < c → items[k]? = some r →
      ((runPromise items acct env (freshRunState items.length)).state.results[k]?).map
        EntryResult.JANCode = some r.JANCode) := by
  have hpre' : ∀ k r, k < c - 0 → items[k]? = some r →
      isFatalStep r (env.behav (0 + k)) = false := by
    intro k r hk hkr
    simpa using hpre k r (by omega) hkr
  obtain ⟨c1, c2, c3⟩ := expectedRun_cancelled env.behav items 0 c (Nat.zero_le c)
    (by simpa using hcn) hpre'
  simp only [Nat.sub_zero] at c1 c2 c3
  have hex : (expectedRun env.behav env.cancelFrom items 0).2 = .cancelled c := by
    rw [hcf]
    exact c1
  have hab : abortedAt env.cancelFrom c = true := by
    rw [hcf]
    simp [abortedAt]
  obtain ⟨hst, hres⟩ :=
    runPromise_cancelled items acct env (freshRunState items.length) c he hp ho hs hex hab
  have hresults : (runPromise items acct env (freshRunState items.length)).state.results =
      (expectedRun env.behav (some c) items 0).1 := by
    rw [hres, hcf]
    simp [freshRunState]
  refine ⟨?_, ?_, hst, ?_, ?_⟩
  · rw [hresults, c2]
  · rw [hresults, c2]
    omega
  · intro k hk
    rw [hresults]
    exact List.getElem?_eq_none (by omega)
  · intro k r hk hkr
    rw [hresults]
    exact c3 k r hk hkr

/-- Run environment in which cancellation is first observed at the check of
item index 1. -/
def cancelRunEnv : RunEnv := { sampleRunEnv with cancelFrom := some 1 }

theorem batch_cancellation_spec_witness :
    (runPromise [sampleItem, sampleItem] .keyPoint cancelRunEnv (freshRunState 2)).state.results.length = 1 ∧
    (runPromise [sampleItem, sampleItem] .keyPoint cancelRunEnv (freshRunState 2)).state.status = .aborted ∧
    (runPromise [sampleItem, sampleItem] .keyPoint cancelRunEnv (freshRunState 2)).state.results[1]? = none := by
  have h := batch_cancellation_spec [sampleItem, sampleItem] .keyPoint cancelRunEnv
    (by decide) (by decide) (by decide) rfl 1 rfl (by simp)
    (fun k r hk hkr => by
      interval_cases k
      simp only [List.getElem?_cons_zero, Option.some.injEq] at hkr
      subst hkr
      rfl)
  exact ⟨by simpa using h.1, h.2.2.1, h.2.2.2.1 1 (by omega)⟩

/-- C10: at the start of the run and after each appended outcome (every
per-item iteration boundary), `progress.processed` equals the number of
entries in results; the boundary after the `k`-th attempted item holds
exactly `k + 1` results, so every appended outcome advances the processed
counter by exactly one and nothing else advances it.  (The boundary list of
`runPromise` records the loop state at each such point.) -/
theorem progress_matches_results (items : List EntryItem) (acct : AccountName) (env : RunEnv)
    (k : Nat) (s : LoopState)
    (h : (runPromise items acct env (freshRunState items.length)).boundaries[k]? = some s) :
    s.run.progress.2 = s.run.results.length ∧
    s.processed = s.run.results.length ∧
    s.run.results.length = k := by
  by_cases hcred : env.email = "" ∨ env.password = "" ∨ env.otpSecret = ""
  · simp only [runPromise, if_pos hcred] at h
    cases k with
    | zero =>
      simp only [List.getElem?_cons_zero, Option.some.injEq] at h
      subst h
      refine ⟨?_, ?_, ?_⟩ <;> simp [initialLoopState, freshRunState]
    | succ k' => simp at h
  · cases hsr : signInResult acct env with
    | error e =>
      simp only [runPromise, if_neg hcred, hsr] at h
      cases k with
      | zero =>
        simp only [List.getElem?_cons_zero, Option.some.injEq] at h
        subst h
        refine ⟨?_, ?_, ?_⟩ <;> simp [initialLoopState, freshRunState]
      | succ k' => simp at h
    | ok u =>
      cases u
      simp only [runPromise, if_neg hcred, hsr] at h
      split at h <;>
        (cases k with
         | zero =>
           simp only [List.getElem?_cons_zero, Option.some.injEq] at h
           subst h
           refine ⟨?_, ?_, ?_⟩ <;> simp [initialLoopState, freshRunState]
         | succ k' =>
           simp only [List.getElem?_cons_succ] at h
           obtain ⟨b1, b2, b3⟩ :=
             runLoop_boundaries env.behav env.cancelFrom items.length items 0 _ k' s h
           refine ⟨?_, ?_, ?_⟩ <;>
             simp_all [initialLoopState, freshRunState])

theorem progress_matches_results_witness :
    (initialLoopState { freshRunState 1 with
        progress := (1, 0) }).run.progress.2 =
      (initialLoopState { freshRunState 1 with
        progress := (1, 0) }).run.results.length ∧
    (initialLoopState { freshRunState 1 with
        progress := (1, 0) }).processed =
      (initialLoopState { freshRunState 1 with
        progress := (1, 0) }).run.results.length ∧
    (initialLoopState { freshRunState 1 with
        progress := (1, 0) }).run.results.length = 0 :=
  progress_matches_results [sampleItem] .keyPoint sampleRunEnv 0 _ rfl

/-- Idle run state (the process-wide state before any batch has started). -/
def idleRunState : RunState := { freshRunState 0 with status := .idle }

/-- A well-formed start request with one valid record. -/
def sampleRequest : PostRequest :=
  { parsed := true
    entryItems := some [{ jan := "4549957721409", price := .fin 11800, stock := .fin 5 }]
    accountName := some .keyPoint
    isHeadless := true }

/-- Run environment whose sign-in credentials are absent from the process
environment. -/
def noCredsRunEnv : RunEnv := { sampleRunEnv with email := "" }

/-- C5 counterexample: a start request that is valid except that the sign-in
credentials are missing from the process environment is NOT rejected - it is
accepted, a browser session is opened on its behalf, and the run then fails
with status error.  The credential check happens inside the run promise
after `launchAmazonBrowser`, not during request validation. -/
theorem post_credentials_cex :
    (POST idleRunState sampleRequest noCredsRunEnv).1 = .accepted ∧
    (POST idleRunState sampleRequest noCredsRunEnv).2.2 = true ∧
    (POST idleRunState sampleRequest noCredsRunEnv).2.1.status = .error := by
  refine ⟨by decide, by decide, by decide⟩

lemma runPromise_browserOpened (items : List EntryItem) (acct : AccountName)
    (env : RunEnv) (st0 : RunState) :
    (runPromise items acct env st0).browserOpened = true := by
  simp only [runPromise]
  repeat' split
  all_goals rfl

lemma runPromise_missing_creds (items : List EntryItem) (acct : AccountName)
    (env : RunEnv) (st0 : RunState)
    (h : env.email = "" ∨ env.password = "" ∨ env.otpSecret = "")
    (hcf : env.cancelFrom = none) :
    (runPromise items acct env st0).state.status = .error := by
  simp only [runPromise, if_pos h]
  rw [settleCatch_status, hcf]
  rfl

/-- C5 (amended): batch preconditions on the items are validated before any
browser session is opened - a start request with an empty item list, any
empty (after trimming) identifier, or any non-finite or negative price or
stock is rejected and no browser session is opened.  Missing credentials,
however, are not part of request validation: an otherwise valid request
with missing credentials is accepted, a browser session is opened, and the
run fails with status error. -/
theorem post_validation_policy (cur : RunState) (req : PostRequest) (env : RunEnv) :
    ((req.entryItems.getD []).length = 0 →
      (POST cur req env).1 ≠ .accepted ∧ (POST cur req env).2.2 = false) ∧
    (((req.entryItems.getD []).map sanitizeRecord).any (fun r => r.JANCode = "") = true →
      (POST cur req env).1 ≠ .accepted ∧ (POST cur req env).2.2 = false) ∧
    (((req.entryItems.getD []).map sanitizeRecord).any invalidNumbers = true →
      (POST cur req env).1 ≠ .accepted ∧ (POST cur req env).2.2 = false) ∧
    (∀ a : AccountName, cur.status ≠ .running → req.parsed = true →
      req.accountName = some a →
      (req.entryItems.getD []).length ≠ 0 →
      ((req.entryItems.getD []).map sanitizeRecord).any (fun r => r.JANCode = "") = false →
      ((req.entryItems.getD []).map sanitizeRecord).any invalidNumbers = false →
      env.email = "" → env.cancelFrom = none →
      (POST cur req env).1 = .accepted ∧ (POST cur req env).2.2 = true ∧
        (POST cur req env).2.1.status = .error) := by
  refine ⟨?_, ?_, ?_, ?_⟩
  · intro hlen
    by_cases h1 : cur.status = .running
    · simp [POST, h1]
    · by_cases h2 : req.parsed = false
      · simp [POST, h1, h2]
      · simp [POST, h1, h2, hlen]
  · intro hjan
    by_cases h1 : cur.status = .running
    · simp [POST, h1]
    · by_cases h2 : req.parsed = false
      · simp [POST, h1, h2]
      · by_cases h3 : (req.entryItems.getD []).length = 0
        · simp [POST, h1, h2, h3]
        · cases hacc : req.accountName with
          | none => simp [POST, h1, h2, h3, hacc]
          | some a => simp [POST, h1, h2, h3, hacc, hjan]
  · intro hnum
    by_cases h1 : cur.status = .running
    · simp [POST, h1]
    · by_cases h2 : req.parsed = false
      · simp [POST, h1, h2]
      · by_cases h3 : (req.entryItems.getD []).length = 0
        · simp [POST, h1, h2, h3]
        · cases hacc : req.accountName with
          | none => simp [POST, h1, h2, h3, hacc]
          | some a =>
            by_cases h4 : ((req.entryItems.getD []).map sanitizeRecord).any
                (fun r => r.JANCode = "") = true
            · simp [POST, h1, h2, h3, hacc, h4]
            · simp [POST, h1, h2, h3, hacc, h4, hnum]
  · intro a hrun hparse hacct hlen hjan hnum hemail hcancel
    have h2 : ¬(req.parsed = false) := by simp [hparse]
    simp only [POST, if_neg hrun, if_neg h2, if_neg hlen, hacct]
    rw [if_neg (by simp [hjan]), if_neg (by simp [hnum])]
    exact ⟨rfl, runPromise_browserOpened _ _ _ _,
      runPromise_missing_creds _ _ _ _ (Or.inl hemail) hcancel⟩

/-- Witness for the amended C5 statement: the empty-list rejection at a
concrete request, and the acceptance-despite-missing-credentials behaviour
at a concrete valid request. -/
theorem post_validation_policy_witness :
    ((POST idleRunState
        { parsed := true, entryItems := some [], accountName := some .keyPoint
          isHeadless := true } sampleRunEnv).1 ≠ .accepted ∧
      (POST idleRunState
        { parsed := true, entryItems := some [], accountName := some .keyPoint
          isHeadless := true } sampleRunEnv).2.2 = false) ∧
    ((POST idleRunState sampleRequest noCredsRunEnv).1 = .accepted ∧
      (POST idleRunState sampleRequest noCredsRunEnv).2.2 = true ∧
      (POST idleRunState sampleRequest noCredsRunEnv).2.1.status = .error) :=
  ⟨(post_validation_policy idleRunState
      { parsed := true, entryItems := some [], accountName := some .keyPoint
        isHeadless := true } sampleRunEnv).1 rfl,
   (post_validation_policy idleRunState sampleRequest noCredsRunEnv).2.2.2
      .keyPoint (by decide) rfl rfl (by decide) rfl rfl rfl rfl⟩
